import Mathlib

/-!
Verification development for the MyPos-MCP database server.

Shallow embedding of `src/mcp_server.js` (tool handlers, identifier quoting,
placeholder generation, statement construction) and of
`src/db_runners/QueryRunner.js` (catalog introspection).  Handlers are modelled
as pure functions; the external database is passed explicitly as a `Db` value,
and every SQL statement a handler sends to the connection pool is recorded in
an `executed` trace.  The responses the pool would produce (result rows,
affected-row counts, per-statement success or failure) are supplied as explicit
parameters, since they originate outside the embedded code.
-/

namespace MyPos

/-- A JavaScript scalar value as it flows through the handlers: `none` models
`undefined`, `some s` any other scalar. -/
abbrev Value := Option String

/-- A JavaScript object with string keys, listed in property insertion order —
the order in which `Object.keys` and `Object.values` iterate. -/
abbrev JsRecord := List (String × Value)

/-- Property read `registro[c]`: `undefined` when the key is absent. -/
def recGet (r : JsRecord) (k : String) : Value :=
  match r.find? (fun p => p.1 == k) with
  | some p => p.2
  | none => none

/-- `Object.keys(r)`. -/
def objKeys (r : JsRecord) : List String := r.map (fun p => p.1)

/-- `Object.values(r)`. -/
def objValues (r : JsRecord) : List Value := r.map (fun p => p.2)

/-- `quoteIdent` (mcp_server.js:39-41): backtick-wrap for MySQL, double-quote
wrap otherwise. -/
def quoteIdent (db_type : String) (ident : String) : String :=
  if db_type == "mysql" then "\x60" ++ ident ++ "\x60" else "\"" ++ ident ++ "\""

/-- `makePlaceholders` (mcp_server.js:44-51): MySQL gets `count` copies of the
fixed token `?`; any other engine (PostgreSQL) gets numbered tokens
`$(i + 1 + offset)` for `i = 0 .. count-1`.  The JS `offset` parameter defaults
to `0`; callers of this embedding pass it explicitly. -/
def makePlaceholders (db_type : String) (count : Nat) (offset : Nat) : List String :=
  if db_type == "mysql" then List.replicate count "?"
  else (List.range count).map (fun i => "$" ++ Nat.repr (i + 1 + offset))

/-- One parameterized statement handed to the pool: SQL text plus the bound
value vector (empty for DDL and plain queries). -/
structure Stmt where
  sql : String
  params : List Value
deriving DecidableEq

/-- Outward result envelope of one tool handler, together with the trace of
statements it sent to the pool. -/
structure ToolOut where
  isError : Bool
  text : String
  executed : List Stmt
deriving DecidableEq

/-- Single-row INSERT construction shared by the `crudTabla` create branch
(mcp_server.js:386-391), `importarTabla` (mcp_server.js:219-223) and
`insertarDatos` (mcp_server.js:334-338): quoted column list and a placeholder
per value, both at offset 0, with the record's values as the bound vector. -/
def buildInsert (db_type tabla : String) (cols : List String) (vals : List Value) : Stmt :=
  ⟨"INSERT INTO " ++ quoteIdent db_type tabla
    ++ " (" ++ String.intercalate ", " (cols.map (quoteIdent db_type))
    ++ ") VALUES (" ++ String.intercalate ", " (makePlaceholders db_type vals.length 0) ++ ")",
   vals⟩

/-- One `col = placeholder` condition per key, with the numbered-dialect
placeholder taken at `offset + i` for the `i`-th key — the shape shared by the
`crudTabla` read branch (`offset = 0`), update SET group (`offset = 0`),
update WHERE group (`offset = setVals.length`) and delete branch
(`offset = 0`) in mcp_server.js:397/408/410/420.  `[0]` on the one-element
array returned by `makePlaceholders(db_type, 1, _)` is `List.getD _ 0 ""`. -/
def eqCondTokens (db_type : String) (cols : List String) (offset : Nat) : List String :=
  cols.enum.map (fun p =>
    quoteIdent db_type p.2 ++ " = " ++ (makePlaceholders db_type 1 (offset + p.1)).getD 0 "")

/-- SET clause of the `crudTabla` update branch (mcp_server.js:408). -/
def setClause (db_type : String) (ds : JsRecord) : String :=
  String.intercalate ", " (eqCondTokens db_type (objKeys ds) 0)

/-- WHERE clause of the `crudTabla` read/update/delete branches
(mcp_server.js:397/410/420), with the placeholder offset of the group. -/
def whereClause (db_type : String) (f : JsRecord) (offset : Nat) : String :=
  String.intercalate " AND " (eqCondTokens db_type (objKeys f) offset)

/-- Error envelope helper: `{ isError: true, content: [{type:'text', text}] }`. -/
def errOut (text : String) : ToolOut := ⟨true, text, []⟩

/-- The `crudTabla` handler (mcp_server.js:372-431).  `datos`/`filtro` are the
optional argument objects (`none` = absent).  The pool's response rendering is
abstracted as the parameter `res`: the JSON text of the returned rows for the
read branch, and the rendering of `result.rows?.affectedRows ?? 'verifica la
tabla.'` for the update and delete branches. -/
def crudTabla (db_type tabla accion : String) (datos filtro : Option JsRecord)
    (res : String) : ToolOut :=
  if tabla == "" || accion == "" then
    errOut "Debes especificar la tabla y la acción."
  else if (accion == "create" || accion == "update") && datos.isNone then
    errOut "Debes proporcionar datos para crear o actualizar."
  else
    let filtro := if (accion == "update" || accion == "delete" || accion == "read")
        && filtro.isNone then some [] else filtro
    if accion == "create" then
      let ds := datos.getD []
      ⟨false, "Registro creado exitosamente.",
        [buildInsert db_type tabla (objKeys ds) (objValues ds)]⟩
    else if accion == "read" then
      let f := filtro.getD []
      let whereStr := if 0 < f.length then "WHERE " ++ whereClause db_type f 0 else ""
      let valores := if 0 < f.length then objValues f else []
      let sql := "SELECT * FROM " ++ quoteIdent db_type tabla ++ " " ++ whereStr
      ⟨false, res, [⟨sql, valores⟩]⟩
    else if accion == "update" then
      let f := filtro.getD []
      if f.length == 0 then
        errOut "Debes proporcionar un filtro para actualizar."
      else
        let ds := datos.getD []
        let setVals := objValues ds
        let whereVals := objValues f
        let sql := "UPDATE " ++ quoteIdent db_type tabla
          ++ " SET " ++ setClause db_type ds
          ++ " WHERE " ++ whereClause db_type f setVals.length
        ⟨false, "Registros actualizados: " ++ res, [⟨sql, setVals ++ whereVals⟩]⟩
    else if accion == "delete" then
      let f := filtro.getD []
      if f.length == 0 then
        errOut "Debes proporcionar un filtro para borrar."
      else
        let whereVals := objValues f
        let sql := "DELETE FROM " ++ quoteIdent db_type tabla
          ++ " WHERE " ++ whereClause db_type f 0
        ⟨false, "Registros eliminados: " ++ res, [⟨sql, whereVals⟩]⟩
    else
      errOut "Acción no soportada."

/-- The whitespace characters recognized by the JavaScript regex class `\s`
and by `String.prototype.trim` (ECMAScript WhiteSpace ∪ LineTerminator). -/
def jsWsChars : List Char :=
  [' ', '\t', '\n', '\r', '\x0b', '\x0c',
   '\u00a0', '\u1680', '\u2000', '\u2001', '\u2002', '\u2003',
   '\u2004', '\u2005', '\u2006', '\u2007', '\u2008', '\u2009',
   '\u200a', '\u2028', '\u2029', '\u202f', '\u205f', '\u3000',
   '\ufeff']

/-- Test for a JS whitespace character. -/
def isJsWs (c : Char) : Bool := List.elem c jsWsChars

/-- `consulta.trim()` on the character list: strip leading and trailing JS
whitespace. -/
def jsTrimList (l : List Char) : List Char := (l.dropWhile isJsWs).rdropWhile isJsWs

/-- `consulta.trim()`. -/
def jsTrim (s : String) : String := String.mk (jsTrimList s.data)

/-- The characters of the regex literal `select`. -/
def selectChars : List Char := ['s', 'e', 'l', 'e', 'c', 't']

/-- Case-insensitive test that a character list begins with `select`: the JS
regex `/^select/i` applied to the string holding these characters.  For an
ASCII pattern the non-unicode `i` flag performs ASCII case folding, which is
exactly what `Char.toLower` does. -/
def startsWithSelectCI (l : List Char) : Bool :=
  selectChars.isPrefixOf (l.map Char.toLower)

/-- The read-only guard of `consultarSQL` (mcp_server.js:122):
`/^select/i.test(consulta.trim())`. -/
def selectGuard (consulta : String) : Bool := startsWithSelectCI (jsTrimList consulta.data)

/-- The specification's phrasing of the same condition: the raw query matches
`^\s*select` case-insensitively, i.e. it begins with `select` after skipping
leading whitespace only. -/
def matchesLeadingSelect (consulta : String) : Bool :=
  startsWithSelectCI (consulta.data.dropWhile isJsWs)

/-- Normalized result of one pool query (QueryRunner.js:36-50): column names
and rows keyed by column name. -/
structure QueryRes where
  columns : List String
  rows : List JsRecord
deriving DecidableEq

/-- JS `String(v)` on a scalar value: `undefined` renders as `"undefined"`. -/
def jsString (v : Value) : String :=
  match v with
  | some s => s
  | none => "undefined"

/-- Tabular rendering of a query result (mcp_server.js:133-137). -/
def renderRows (r : QueryRes) : String :=
  let headers := String.intercalate " | " r.columns
  headers ++ "\n" ++ String.mk (List.replicate headers.length '-') ++ "\n"
    ++ String.intercalate "\n"
        (r.rows.map (fun row =>
          String.intercalate " | " (r.columns.map (fun c => jsString (recGet row c)))))

/-- The `consultarSQL` handler (mcp_server.js:119-146).  The pool's response to
the query is passed explicitly; `Except.error` models a thrown driver error,
caught at mcp_server.js:140. -/
def consultarSQL (consulta : String) (res : Except String QueryRes) : ToolOut :=
  if !(selectGuard consulta) then
    errOut "Solo se permiten consultas SELECT."
  else
    match res with
    | .error e => ⟨true, "Error al consultar: " ++ e, [⟨consulta, []⟩]⟩
    | .ok r =>
      if r.rows.length == 0 then ⟨false, "Sin resultados.", [⟨consulta, []⟩]⟩
      else ⟨false, renderRows r, [⟨consulta, []⟩]⟩

/-- Catalog model: the database's tables by name, each with its ordered column
names.  Catalog introspection is modelled as pure lookup on this state. -/
abbrev Db := List (String × List String)

/-- Name-keyed table lookup in the catalog. -/
def lookupTable (db : Db) (t : String) : Option (List String) :=
  (db.find? (fun p => p.1 == t)).map (fun p => p.2)

/-- MySQL branch of `getTableColumns` (QueryRunner.js:104-105): `SHOW COLUMNS
FROM` raises a driver error when the table does not exist, otherwise yields
the column names. -/
def showColumnsFrom (db : Db) (t : String) : Except String (List String) :=
  match lookupTable db t with
  | some cols => .ok cols
  | none => .error ("Table \x27" ++ t ++ "\x27 doesn\x27t exist")

/-- PostgreSQL branch of `getTableColumns` (QueryRunner.js:107-111): the
`information_schema.columns` query returns one row per column and zero rows
for an absent table — it never raises. -/
def infoSchemaColumns (db : Db) (t : String) : List String :=
  match lookupTable db t with
  | some cols => cols
  | none => []

/-- `QueryRunner.getTableColumns` (QueryRunner.js:101-117): the whole body is
wrapped in `try { … } catch { return [] }`, so the MySQL missing-table error
is converted to the empty list. -/
def getTableColumns (db_type : String) (db : Db) (t : String) : List String :=
  if db_type == "mysql" then
    match showColumnsFrom db t with
    | .ok cols => cols
    | .error _ => []
  else infoSchemaColumns db t

/-- The `columnasDeTabla` handler (mcp_server.js:91-105); its `catch` branch is
unreachable here because the embedded `getTableColumns` is total. -/
def columnasDeTabla (db_type : String) (db : Db) (tabla : String) : ToolOut :=
  let columns := getTableColumns db_type db tabla
  if columns.length == 0 then
    ⟨false, "La tabla \x27" ++ tabla ++ "\x27 no tiene columnas.", []⟩
  else
    ⟨false, "Columnas de la tabla \x27" ++ tabla ++ "\x27:\n"
      ++ String.intercalate "\n" (columns.map (fun col => "- " ++ col)), []⟩

/-- `CREATE TABLE` DDL execution on the catalog model: registers the table. -/
def createTable (db : Db) (t : String) (cols : List String) : Db := db ++ [(t, cols)]

/-- `DROP TABLE IF EXISTS` DDL execution on the catalog model: removes the
table when present and succeeds either way. -/
def dropTableIfExists (db : Db) (t : String) : Db :=
  db.filter (fun p => !(p.1 == t))

/-- The `crearTabla` handler (mcp_server.js:252-277): argument validation, the
existence probe via `getTableColumns` (whose surrounding `try`/`catch` is
unreachable since the probe never throws), then CREATE TABLE built from the
supplied column name/type pairs. -/
def crearTabla (db_type : String) (db : Db) (nombreTabla : String)
    (columnas : List (String × String)) : ToolOut × Db :=
  if nombreTabla == "" || columnas.length == 0 then
    (errOut "Debes proporcionar un nombre de tabla y al menos una columna.", db)
  else
    let colsExistentes := getTableColumns db_type db nombreTabla
    if 0 < colsExistentes.length then
      (⟨false, "La tabla \x27" ++ nombreTabla
        ++ "\x27 ya existe. No es necesario crearla.", []⟩, db)
    else
      let columnasSQL := String.intercalate ",\n"
        (columnas.map (fun col => quoteIdent db_type col.1 ++ " " ++ col.2))
      let sql := "CREATE TABLE " ++ quoteIdent db_type nombreTabla
        ++ " (\n" ++ columnasSQL ++ "\n)"
      (⟨false, "Tabla creada exitosamente.", [⟨sql, []⟩]⟩,
       createTable db nombreTabla (columnas.map (fun col => col.1)))

/-- The `eliminarTabla` handler (mcp_server.js:550-561).  Its argument schema
has exactly one field, `nombreTabla`; no confirmation string is received or
compared.  After the presence check it unconditionally executes
`DROP TABLE IF EXISTS`, which succeeds whether or not the table exists. -/
def eliminarTabla (db_type : String) (db : Db) (nombreTabla : String) : ToolOut × Db :=
  if nombreTabla == "" then
    (errOut "Debes proporcionar el nombre de la tabla.", db)
  else
    (⟨false, "Tabla \x27" ++ nombreTabla ++ "\x27 eliminada exitosamente.",
      [⟨"DROP TABLE IF EXISTS " ++ quoteIdent db_type nombreTabla, []⟩]⟩,
     dropTableIfExists db nombreTabla)

/-- State of the sequential insert loop shared by `importarTabla`
(mcp_server.js:217-226) and `insertarDatos` (mcp_server.js:332-341): the
statements attempted against the pool in order, those that succeeded, the
`insertedCount` counter, and the message of the first failure — after which
the loop stops, because the failed `await` throws out of the `for` into the
handler's `catch`. -/
structure InsertRunOut where
  insertedCount : Nat
  attempted : List Stmt
  succeeded : List Stmt
  failure : Option String
deriving DecidableEq

/-- Run the insert loop; `exec k` is the pool's verdict on the `k`-th
attempted statement. -/
def runInserts (exec : Nat → Except String Unit) : List Stmt → Nat → InsertRunOut
  | [], _ => ⟨0, [], [], none⟩
  | st :: rest, k =>
    match exec k with
    | .error e => ⟨0, [st], [], some e⟩
    | .ok _ =>
      let r := runInserts exec rest (k + 1)
      ⟨r.insertedCount + 1, st :: r.attempted, st :: r.succeeded, r.failure⟩

/-- Outward envelope of the two bulk-insert handlers, with their execution
traces. -/
structure BatchOut where
  isError : Bool
  text : String
  attempted : List Stmt
  succeeded : List Stmt
deriving DecidableEq

/-- Column selection of `importarTabla` (mcp_server.js:219): the explicit
`columnas` argument when non-empty, otherwise the record's own keys. -/
def importCols (columnas : Option (List String)) (registro : JsRecord) : List String :=
  match columnas with
  | some cs => if 0 < cs.length then cs else objKeys registro
  | none => objKeys registro

/-- The INSERT built for one parsed record by `importarTabla`
(mcp_server.js:219-223): one value per selected column, looked up in the
record. -/
def importStmt (db_type tabla : String) (columnas : Option (List String))
    (registro : JsRecord) : Stmt :=
  buildInsert db_type tabla (importCols columnas registro)
    ((importCols columnas registro).map (recGet registro))

/-- Insertion phase of the `importarTabla` handler (mcp_server.js:198-231),
applied to the already-parsed records (CSV/JSON text parsing is the external
collaborator per the spec's scope).  `exec` is the pool's verdict on each
attempted statement. -/
def importarTabla (db_type tabla : String) (columnas : Option (List String))
    (registros : List JsRecord) (exec : Nat → Except String Unit) : BatchOut :=
  let stmts := registros.map (importStmt db_type tabla columnas)
  let r := runInserts exec stmts 0
  match r.failure with
  | some e => ⟨true, "Error al importar datos: " ++ e, r.attempted, r.succeeded⟩
  | none =>
    ⟨false, "Se importaron " ++ Nat.repr r.insertedCount
      ++ " registro(s) en la tabla \x27" ++ tabla ++ "\x27 exitosamente.",
     r.attempted, r.succeeded⟩

/-- The `insertarDatos` handler (mcp_server.js:324-354). -/
def insertarDatos (db_type tabla : String) (datos : List JsRecord)
    (exec : Nat → Except String Unit) : BatchOut :=
  if datos.length == 0 then
    ⟨true, "Debes proporcionar un array de datos para insertar.", [], []⟩
  else
    let stmts := datos.map (fun registro =>
      buildInsert db_type tabla (objKeys registro) (objValues registro))
    let r := runInserts exec stmts 0
    match r.failure with
    | some e => ⟨true, "Error al insertar datos: " ++ e, r.attempted, r.succeeded⟩
    | none =>
      ⟨false, "Se insertaron " ++ Nat.repr r.insertedCount
        ++ " registro(s) en la tabla \x27" ++ tabla ++ "\x27 exitosamente.",
       r.attempted, r.succeeded⟩

end MyPos

namespace MyPos

/-- Claim C4: `makePlaceholders db_type n k` always returns exactly `n` tokens;
for the numbered-placeholder dialect (anything but MySQL) they are
`$(k+1), …, $(k+n)` in order, and for MySQL all `n` tokens are the identical
token `?` regardless of `k`. -/
theorem c4_makePlaceholders_tokens (db_type : String) (n k : Nat) :
    (makePlaceholders db_type n k).length = n ∧
    (db_type = "mysql" → makePlaceholders db_type n k = List.replicate n "?") ∧
    (db_type ≠ "mysql" →
      makePlaceholders db_type n k =
        (List.range n).map (fun i => "$" ++ Nat.repr (k + (i + 1)))) := by
  refine ⟨?_, ?_, ?_⟩
  · unfold makePlaceholders
    split <;> simp
  · intro h
    subst h
    simp [makePlaceholders]
  · intro h
    have hb : (db_type == "mysql") = false := by
      simpa using h
    unfold makePlaceholders
    rw [hb]
    simp only [Bool.false_eq_true, if_false]
    refine List.map_congr_left (fun i _ => ?_)
    have : i + 1 + k = k + (i + 1) := by omega
    rw [this]

/-- Witness for C4 at concrete inputs: three numbered tokens at offset 2, and
three fixed tokens for MySQL. -/
theorem c4_makePlaceholders_tokens_witness :
    makePlaceholders "pg" 3 2 = ["$3", "$4", "$5"] ∧
    makePlaceholders "mysql" 3 2 = ["?", "?", "?"] := by
  constructor
  · have h := (c4_makePlaceholders_tokens "pg" 3 2).2.2 (by decide)
    rw [h]
    decide
  · have h := (c4_makePlaceholders_tokens "mysql" 3 2).2.1 rfl
    rw [h]
    decide

/-- Helper: no JS whitespace character case-folds onto a character of the
`select` pattern. -/
theorem ws_toLower_not_select (c : Char) (hw : isJsWs c = true) :
    Char.toLower c ∉ selectChars := by
  intro hmem
  have hc : c ∈ jsWsChars := List.elem_iff.mp (by simpa [isJsWs] using hw)
  fin_cases hc <;> exact absurd hmem (by decide)

/-- Helper: removing a trailing run of characters satisfying `q` preserves any
prefix none of whose characters satisfies `q`. -/
theorem prefix_rdropWhile {q : Char → Bool} {p l : List Char}
    (hp : ∀ a ∈ p, q a = false) (h : p <+: l) :
    p <+: l.rdropWhile q := by
  obtain ⟨t, rfl⟩ := h
  unfold List.rdropWhile
  rw [List.reverse_append, List.dropWhile_append]
  split
  · have hps : p.reverse.dropWhile q = p.reverse := by
      cases hrev : p.reverse with
      | nil => simp
      | cons a as =>
        have hap : a ∈ p := by
          have : a ∈ p.reverse := by
            rw [hrev]
            exact List.mem_cons_self a as
          simpa using this
        simp [List.dropWhile_cons, hp a hap]
    rw [hps, List.reverse_reverse]
  · rw [List.reverse_append, List.reverse_reverse]
    exact List.prefix_append p _

/-- The guard the code computes — `/^select/i.test(consulta.trim())` — agrees
with the spec's reading of the pattern `^\s*select` on the raw query: the
trailing trim cannot disturb a six-character non-whitespace prefix. -/
theorem selectGuard_eq_matchesLeadingSelect (s : String) :
    selectGuard s = matchesLeadingSelect s := by
  unfold selectGuard matchesLeadingSelect jsTrimList startsWithSelectCI
  rw [Bool.eq_iff_iff]
  rw [ List.isPrefixOf_iff_prefix, List.isPrefixOf_iff_prefix]
  set m := s.data.dropWhile isJsWs with hm
  constructor
  · intro h
    exact h.trans (( List.rdropWhile_prefix isJsWs m).map Char.toLower)
  · intro h
    obtain ⟨t, ht⟩ := h
    have hp6 : (m.take 6).map Char.toLower = selectChars := by
      rw [List.map_take, ← ht]
      exact List.take_left' rfl
    have hws : ∀ a ∈ m.take 6, isJsWs a = false := by
      intro a ha
      cases hcon : isJsWs a with
      | false => rfl
      | true =>
        have hmem : Char.toLower a ∈ selectChars := by
          rw [← hp6]
          exact List.mem_map_of_mem Char.toLower ha
        exact absurd hmem (ws_toLower_not_select a hcon)
    have h2 : m.take 6 <+: m.rdropWhile isJsWs :=
      prefix_rdropWhile hws ( List.take_prefix 6 m)
    have h3 := h2.map Char.toLower
    rw [hp6] at h3
    exact h3

/-- Claim C2: a query that does not match `^\s*select` case-insensitively is
rejected by `consultarSQL` with an error envelope and nothing is executed; a
query that matches is passed to the pool for execution as-is. -/
theorem c2_consultarSQL_readonly_guard (consulta : String)
    (res : Except String QueryRes) :
    (matchesLeadingSelect consulta = false →
      (consultarSQL consulta res).isError = true ∧
      (consultarSQL consulta res).executed = []) ∧
    (matchesLeadingSelect consulta = true →
      (consultarSQL consulta res).executed = [⟨consulta, []⟩]) := by
  have he := selectGuard_eq_matchesLeadingSelect consulta
  constructor
  · intro h
    have hg : selectGuard consulta = false := by rw [he, h]
    simp [consultarSQL, hg, errOut]
  · intro h
    have hg : selectGuard consulta = true := by rw [he, h]
    rcases res with e | r
    · simp [consultarSQL, hg]
    · simp only [consultarSQL, hg, Bool.not_true, Bool.false_eq_true, if_false]
      split <;> rfl

/-- Witness for C2: a non-SELECT query is rejected without execution, and a
SELECT reached through leading whitespace and mixed case is executed. -/
theorem c2_consultarSQL_readonly_guard_witness :
    matchesLeadingSelect "DELETE FROM t" = false ∧
    (consultarSQL "DELETE FROM t" (Except.ok ⟨[], []⟩)).isError = true ∧
    (consultarSQL "DELETE FROM t" (Except.ok ⟨[], []⟩)).executed = [] ∧
    matchesLeadingSelect "  SeLeCt 1" = true ∧
    (consultarSQL "  SeLeCt 1" (Except.ok ⟨[], []⟩)).executed =
      [⟨"  SeLeCt 1", []⟩] := by
  refine ⟨by decide, ?_, ?_, by decide, ?_⟩
  · exact ((c2_consultarSQL_readonly_guard "DELETE FROM t"
      (Except.ok ⟨[], []⟩)).1 (by decide)).1
  · exact ((c2_consultarSQL_readonly_guard "DELETE FROM t"
      (Except.ok ⟨[], []⟩)).1 (by decide)).2
  · exact (c2_consultarSQL_readonly_guard "  SeLeCt 1"
      (Except.ok ⟨[], []⟩)).2 (by decide)

/-- Helper: on the numbered-placeholder dialect, the condition group built at
offset `d` uses the tokens `$(d+1), $(d+2), …` in key order. -/
theorem eqCondTokens_numbered (db_type : String) (cols : List String) (d : Nat)
    (hm : db_type ≠ "mysql") :
    eqCondTokens db_type cols d =
      cols.enum.map (fun p =>
        quoteIdent db_type p.2 ++ " = " ++ ("$" ++ Nat.repr (d + p.1 + 1))) := by
  have hb : (db_type == "mysql") = false := beq_eq_false_iff_ne.mpr hm
  unfold eqCondTokens
  refine List.map_congr_left (fun p _ => ?_)
  simp only [makePlaceholders, hb, Bool.false_eq_true, if_false]
  rw [(by rfl : List.range 1 = [0])]
  simp only [List.map_cons, List.map_nil, List.getD_cons_zero]
  have h2 : 0 + 1 + (d + p.1) = d + p.1 + 1 := by omega
  rw [h2]

/-- Claim C3: a `crudTabla` update with non-empty data of size `d` and
non-empty filter of size `f` executes exactly one UPDATE statement; its bound
value vector is the SET values followed by the WHERE values (length `d + f`),
in key iteration order; and on the numbered-placeholder dialect the SET group
uses tokens `$1 … $d` (offset 0) while the WHERE group uses `$(d+1) … $(d+f)`,
whose numbers never collide with the SET group's. -/
theorem c3_crud_update_statement (db_type tabla res : String) (ds fs : JsRecord)
    (ht : tabla ≠ "") (hd : ds ≠ []) (hf : fs ≠ []) :
    (crudTabla db_type tabla "update" (some ds) (some fs) res).executed =
      [⟨"UPDATE " ++ quoteIdent db_type tabla ++ " SET " ++ setClause db_type ds
          ++ " WHERE " ++ whereClause db_type fs (objValues ds).length,
        objValues ds ++ objValues fs⟩] ∧
    (objValues ds ++ objValues fs).length = ds.length + fs.length ∧
    (db_type ≠ "mysql" →
      eqCondTokens db_type (objKeys ds) 0 =
        (objKeys ds).enum.map (fun p =>
          quoteIdent db_type p.2 ++ " = " ++ ("$" ++ Nat.repr (p.1 + 1))) ∧
      eqCondTokens db_type (objKeys fs) (objValues ds).length =
        (objKeys fs).enum.map (fun p =>
          quoteIdent db_type p.2 ++ " = " ++ ("$" ++ Nat.repr (ds.length + p.1 + 1))) ∧
      ∀ i j : Nat, i < ds.length → j < fs.length → i + 1 ≠ ds.length + j + 1) := by
  have hbt : (tabla == "") = false := beq_eq_false_iff_ne.mpr ht
  have hbf : (fs.length == 0) = false :=
    beq_eq_false_iff_ne.mpr (by simpa [List.length_eq_zero] using hf)
  refine ⟨?_, ?_, ?_⟩
  · simp +decide [crudTabla, hbt, hbf]
  · simp [objValues]
  · intro hm
    refine ⟨?_, ?_, ?_⟩
    · rw [eqCondTokens_numbered db_type (objKeys ds) 0 hm]
      refine List.map_congr_left (fun p _ => ?_)
      have h2 : 0 + p.1 + 1 = p.1 + 1 := by omega
      rw [h2]
    · have h3 : (objValues ds).length = ds.length := by simp [objValues]
      rw [eqCondTokens_numbered db_type (objKeys fs) (objValues ds).length hm, h3]
    · intro i j hi hj
      omega

/-- Witness for C3: the spec's own example scenario
`generic-crud(customers, update, data={email:"a@b.com"}, filter={id:5})` on the
numbered dialect builds one UPDATE with two bound values in SET+WHERE order. -/
theorem c3_crud_update_statement_witness :
    (crudTabla "pg" "clientes" "update" (some [("email", some "a@b.com")])
        (some [("id", some "5")]) "1").executed =
      [⟨"UPDATE \"clientes\" SET \"email\" = $1 WHERE \"id\" = $2",
        [some "a@b.com", some "5"]⟩] := by
  have h := (c3_crud_update_statement "pg" "clientes" "1" [("email", some "a@b.com")]
    [("id", some "5")] (by decide) (by decide) (by decide)).1
  rw [h]
  decide

/-- Claim C5: `crudTabla` update and delete with an absent or empty filter are
rejected with an error envelope before any statement is built or executed,
while read with an absent or empty filter builds and executes a SELECT with no
WHERE clause (full scan). -/
theorem c5_empty_filter_policy (db_type tabla res : String)
    (datos filtro : Option JsRecord) (ht : tabla ≠ "")
    (hf : filtro = none ∨ filtro = some []) :
    ((crudTabla db_type tabla "update" datos filtro res).isError = true ∧
      (crudTabla db_type tabla "update" datos filtro res).executed = []) ∧
    ((crudTabla db_type tabla "delete" datos filtro res).isError = true ∧
      (crudTabla db_type tabla "delete" datos filtro res).executed = []) ∧
    ((crudTabla db_type tabla "read" datos filtro res).isError = false ∧
      (crudTabla db_type tabla "read" datos filtro res).executed =
        [⟨"SELECT * FROM " ++ quoteIdent db_type tabla ++ " ", []⟩]) := by
  have hbt : (tabla == "") = false := beq_eq_false_iff_ne.mpr ht
  rcases hf with rfl | rfl <;> rcases datos with _ | ds <;>
    refine ⟨⟨?_, ?_⟩, ⟨?_, ?_⟩, ?_, ?_⟩ <;>
    simp +decide [crudTabla, hbt, errOut]

/-- Witness for C5 at concrete inputs: absent filter. -/
theorem c5_empty_filter_policy_witness :
    (crudTabla "pg" "t" "update" none none "r").isError = true ∧
    (crudTabla "pg" "t" "delete" none none "r").executed = [] ∧
    (crudTabla "pg" "t" "read" none none "r").executed =
      [⟨"SELECT * FROM \"t\" ", []⟩] := by
  have h := c5_empty_filter_policy "pg" "t" "r" none none (by decide) (Or.inl rfl)
  exact ⟨h.1.1, h.2.1.2, h.2.2.2⟩

/-- Counterexample to claim C6 as stated: a `crudTabla` create whose data
object is present but empty (`{}` — no keys) is NOT rejected; the handler
builds and executes the degenerate statement `INSERT INTO `t` () VALUES ()`
and reports success. -/
theorem c6_counterexample :
    (crudTabla "mysql" "t" "create" (some []) none "r").isError = false ∧
    (crudTabla "mysql" "t" "create" (some []) none "r").executed =
      [⟨"INSERT INTO \x60t\x60 () VALUES ()", []⟩] := by
  constructor <;> rfl

/-- Claim C6 (amended): for `crudTabla` create/update the data validation only
rejects an absent data object (`!datos || typeof datos !== 'object'`), with a
validation error and nothing executed; an empty-but-present data mapping
passes the check, and for create a degenerate INSERT with empty column and
placeholder lists is built and executed. -/
theorem c6_create_update_data_validation (db_type tabla accion res : String)
    (filtro : Option JsRecord) (ht : tabla ≠ "")
    (ha : accion = "create" ∨ accion = "update") :
    ((crudTabla db_type tabla accion none filtro res).isError = true ∧
      (crudTabla db_type tabla accion none filtro res).executed = [] ∧
      (crudTabla db_type tabla accion none filtro res).text =
        "Debes proporcionar datos para crear o actualizar.") ∧
    (crudTabla db_type tabla "create" (some []) filtro res).executed =
      [buildInsert db_type tabla [] []] := by
  have hbt : (tabla == "") = false := beq_eq_false_iff_ne.mpr ht
  constructor
  · rcases ha with rfl | rfl <;>
      refine ⟨?_, ?_, ?_⟩ <;> simp +decide [crudTabla, hbt, errOut]
  · simp +decide [crudTabla, hbt, objKeys, objValues]

/-- Witness for C6 (amended) at concrete inputs. -/
theorem c6_create_update_data_validation_witness :
    (crudTabla "mysql" "t" "create" none none "r").isError = true ∧
    (crudTabla "mysql" "t" "create" (some []) none "r").executed =
      [buildInsert "mysql" "t" [] []] := by
  have h := c6_create_update_data_validation "mysql" "t" "create" "r" none
    (by decide) (Or.inl rfl)
  exact ⟨h.1.1, h.2⟩

/-- Claim C1 (contradicted by the code): the destructive handlers receive no
confirmation string at all — `eliminarTabla`'s argument schema has only
`nombreTabla` and `crudTabla`'s only table/action/data/filter — yet, with no
confirmation supplied anywhere, they execute the DROP TABLE and DELETE
statements and report success.  The exact-phrase check demanded by the tools'
own descriptions (mcp_server.js:544-545, 363) is nowhere in the handlers. -/
theorem c1_destructive_ops_execute_without_confirmation :
    (eliminarTabla "mysql" [("usuarios", ["id"])] "usuarios").1.isError = false ∧
    (eliminarTabla "mysql" [("usuarios", ["id"])] "usuarios").1.executed =
      [⟨"DROP TABLE IF EXISTS \x60usuarios\x60", []⟩] ∧
    (crudTabla "mysql" "usuarios" "delete" none
      (some [("id", some "5")]) "1").isError = false ∧
    (crudTabla "mysql" "usuarios" "delete" none
      (some [("id", some "5")]) "1").executed =
      [⟨"DELETE FROM \x60usuarios\x60 WHERE \x60id\x60 = ?", [some "5"]⟩] := by
  refine ⟨rfl, by decide, rfl, by decide⟩

/-- Claim C7: `getTableColumns` on a table absent from the catalog returns the
empty column list instead of raising, on both engines (the MySQL driver error
is swallowed by the handler's `catch`, the PostgreSQL catalog query simply has
zero rows), and the `columnasDeTabla` handler consequently reports a friendly
non-error message. -/
theorem c7_getTableColumns_missing_table (db_type : String) (db : Db) (t : String)
    (h : lookupTable db t = none) :
    getTableColumns db_type db t = [] ∧
    (columnasDeTabla db_type db t).isError = false ∧
    (columnasDeTabla db_type db t).text =
      "La tabla \x27" ++ t ++ "\x27 no tiene columnas." := by
  have hg : getTableColumns db_type db t = [] := by
    simp only [getTableColumns, showColumnsFrom, infoSchemaColumns, h]
    split <;> rfl
  refine ⟨hg, ?_, ?_⟩ <;> simp [columnasDeTabla, hg]

/-- Witness for C7 on both engines at a concrete absent table. -/
theorem c7_getTableColumns_missing_table_witness :
    getTableColumns "mysql" [("otros", ["id"])] "usuarios" = [] ∧
    getTableColumns "pg" [("otros", ["id"])] "usuarios" = [] ∧
    (columnasDeTabla "mysql" [("otros", ["id"])] "usuarios").isError = false := by
  refine ⟨?_, ?_, ?_⟩
  · exact (c7_getTableColumns_missing_table "mysql" [("otros", ["id"])]
      "usuarios" (by decide)).1
  · exact (c7_getTableColumns_missing_table "pg" [("otros", ["id"])]
      "usuarios" (by decide)).1
  · exact (c7_getTableColumns_missing_table "mysql" [("otros", ["id"])]
      "usuarios" (by decide)).2.1

/-- Claim C8: when the existence probe finds columns, `crearTabla` answers
with the "already exists" message and issues no DDL and the catalog is
unchanged; when the probe finds none, it executes exactly one CREATE TABLE
statement built from the supplied column name/type pairs and confirms
success. -/
theorem c8_crearTabla_existence_precheck (db_type : String) (db : Db)
    (nombreTabla : String) (columnas : List (String × String))
    (hn : nombreTabla ≠ "") (hc : columnas ≠ []) :
    (getTableColumns db_type db nombreTabla ≠ [] →
      (crearTabla db_type db nombreTabla columnas).1.isError = false ∧
      (crearTabla db_type db nombreTabla columnas).1.text =
        "La tabla \x27" ++ nombreTabla ++ "\x27 ya existe. No es necesario crearla." ∧
      (crearTabla db_type db nombreTabla columnas).1.executed = [] ∧
      (crearTabla db_type db nombreTabla columnas).2 = db) ∧
    (getTableColumns db_type db nombreTabla = [] →
      (crearTabla db_type db nombreTabla columnas).1.isError = false ∧
      (crearTabla db_type db nombreTabla columnas).1.text =
        "Tabla creada exitosamente." ∧
      (crearTabla db_type db nombreTabla columnas).1.executed =
        [⟨"CREATE TABLE " ++ quoteIdent db_type nombreTabla ++ " (\n"
            ++ String.intercalate ",\n"
                (columnas.map (fun col => quoteIdent db_type col.1 ++ " " ++ col.2))
            ++ "\n)", []⟩]) := by
  have hbn : (nombreTabla == "") = false := beq_eq_false_iff_ne.mpr hn
  have hbc : (columnas.length == 0) = false :=
    beq_eq_false_iff_ne.mpr (by simpa [List.length_eq_zero] using hc)
  constructor
  · intro h
    have hlen : 0 < (getTableColumns db_type db nombreTabla).length :=
      List.length_pos.mpr h
    refine ⟨?_, ?_, ?_, ?_⟩ <;> simp [crearTabla, hbn, hbc, hlen]
  · intro h
    refine ⟨?_, ?_, ?_⟩ <;> simp [crearTabla, hbn, hbc, h]

/-- Witness for C8: the spec's example scenario — creating `productos` twice;
the second call answers "already exists" and issues no DDL. -/
theorem c8_crearTabla_existence_precheck_witness :
    (crearTabla "mysql" [] "productos"
      [("id", "INT PRIMARY KEY"), ("nombre", "VARCHAR(100)")]).1.text =
      "Tabla creada exitosamente." ∧
    (crearTabla "mysql" [("productos", ["id", "nombre"])] "productos"
      [("id", "INT PRIMARY KEY"), ("nombre", "VARCHAR(100)")]).1.text =
      "La tabla \x27productos\x27 ya existe. No es necesario crearla." ∧
    (crearTabla "mysql" [("productos", ["id", "nombre"])] "productos"
      [("id", "INT PRIMARY KEY"), ("nombre", "VARCHAR(100)")]).1.executed = [] := by
  refine ⟨?_, ?_, ?_⟩
  · exact ((c8_crearTabla_existence_precheck "mysql" [] "productos"
      [("id", "INT PRIMARY KEY"), ("nombre", "VARCHAR(100)")]
      (by decide) (by decide)).2 (by decide)).2.1
  · exact ((c8_crearTabla_existence_precheck "mysql" [("productos", ["id", "nombre"])]
      "productos" [("id", "INT PRIMARY KEY"), ("nombre", "VARCHAR(100)")]
      (by decide) (by decide)).1 (by decide)).2.1
  · exact ((c8_crearTabla_existence_precheck "mysql" [("productos", ["id", "nombre"])]
      "productos" [("id", "INT PRIMARY KEY"), ("nombre", "VARCHAR(100)")]
      (by decide) (by decide)).1 (by decide)).2.2.1

/-- Claim C9: for any non-empty table name, `eliminarTabla` executes
`DROP TABLE IF EXISTS` and reports the success message even when no table of
that name exists in the catalog — a missing table is never a not-found
error. -/
theorem c9_eliminarTabla_missing_table_success (db_type : String) (db : Db)
    (nombreTabla : String) (hn : nombreTabla ≠ "")
    (hmiss : lookupTable db nombreTabla = none) :
    (eliminarTabla db_type db nombreTabla).1.isError = false ∧
    (eliminarTabla db_type db nombreTabla).1.text =
      "Tabla \x27" ++ nombreTabla ++ "\x27 eliminada exitosamente." ∧
    (eliminarTabla db_type db nombreTabla).1.executed =
      [⟨"DROP TABLE IF EXISTS " ++ quoteIdent db_type nombreTabla, []⟩] ∧
    (eliminarTabla db_type db nombreTabla).2 = db := by
  have hbn : (nombreTabla == "") = false := beq_eq_false_iff_ne.mpr hn
  have hdb : dropTableIfExists db nombreTabla = db := by
    unfold dropTableIfExists
    refine List.filter_eq_self.mpr (fun p hp => ?_)
    cases hbe : p.1 == nombreTabla with
    | false => rfl
    | true =>
      exfalso
      have hfind : (db.find? (fun q => q.1 == nombreTabla)).isSome :=
        List.find?_isSome.mpr ⟨p, hp, hbe⟩
      rcases Option.isSome_iff_exists.mp hfind with ⟨q, hq⟩
      simp [lookupTable, hq] at hmiss
  refine ⟨?_, ?_, ?_, ?_⟩ <;> simp [eliminarTabla, hbn, hdb]

/-- Witness for C9 at a concrete catalog not containing the table. -/
theorem c9_eliminarTabla_missing_table_success_witness :
    (eliminarTabla "pg" [("otros", ["id"])] "fantasma").1.isError = false ∧
    (eliminarTabla "pg" [("otros", ["id"])] "fantasma").1.text =
      "Tabla \x27fantasma\x27 eliminada exitosamente." := by
  have h := c9_eliminarTabla_missing_table_success "pg" [("otros", ["id"])]
    "fantasma" (by decide) (by decide)
  exact ⟨h.1, h.2.1⟩

/-- Helper: when every statement of the batch succeeds, the loop attempts all
of them in order and counts them all. -/
theorem runInserts_ok (exec : Nat → Except String Unit) :
    ∀ (stmts : List Stmt) (k : Nat),
      (∀ i, i < stmts.length → exec (k + i) = .ok ()) →
      runInserts exec stmts k = ⟨stmts.length, stmts, stmts, none⟩
  | [], _, _ => rfl
  | st :: rest, k, h => by
    have h0 : exec k = .ok () := by
      have := h 0 (Nat.succ_pos _)
      simpa using this
    have ih := runInserts_ok exec rest (k + 1) (fun i hi => by
      have hx := h (i + 1) (by simpa using Nat.succ_lt_succ hi)
      have hidx : k + (i + 1) = k + 1 + i := by omega
      rwa [hidx] at hx)
    simp [runInserts, h0, ih]

/-- Helper: when the `j`-th statement is the first to fail, the loop attempts
exactly the first `j + 1` statements, the first `j` of which succeed, and
stops with that failure. -/
theorem runInserts_fail (exec : Nat → Except String Unit) (e : String) :
    ∀ (stmts : List Stmt) (k j : Nat),
      j < stmts.length →
      (∀ i, i < j → exec (k + i) = .ok ()) →
      exec (k + j) = .error e →
      runInserts exec stmts k = ⟨j, stmts.take (j + 1), stmts.take j, some e⟩
  | [], _, j, hj, _, _ => absurd hj (by simp)
  | st :: rest, k, 0, _, _, herr => by
    have h0 : exec k = .error e := by simpa using herr
    simp [runInserts, h0]
  | st :: rest, k, j + 1, hj, hok, herr => by
    have h0 : exec k = .ok () := by
      have := hok 0 (Nat.succ_pos _)
      simpa using this
    have ih := runInserts_fail exec e rest (k + 1) j (by simpa using hj)
      (fun i hi => by
        have hx := hok (i + 1) (by omega)
        have hidx : k + (i + 1) = k + 1 + i := by omega
        rwa [hidx] at hx)
      (by
        have hidx : k + (j + 1) = k + 1 + j := by omega
        rwa [hidx] at herr)
    simp [runInserts, h0, ih, List.take_succ_cons]

/-- Claim C10: `importarTabla` (and likewise `insertarDatos`) inserts `N`
parsed records as `N` separate single-row INSERT statements in order, one per
record, and on success the message reports exactly `N`.  The batch is not
atomic: when the `j`-th statement (0-based) is the first to fail, the handler
returns an error envelope, the first `j` inserts have already succeeded and
stay, the failing one was attempted, and the remaining records are never
attempted. -/
theorem c10_bulk_insert_sequencing (db_type tabla : String)
    (columnas : Option (List String)) (registros : List JsRecord)
    (exec : Nat → Except String Unit) (j : Nat) (e : String) :
    ((∀ i, i < registros.length → exec i = .ok ()) →
      importarTabla db_type tabla columnas registros exec =
        ⟨false, "Se importaron " ++ Nat.repr registros.length
            ++ " registro(s) en la tabla \x27" ++ tabla ++ "\x27 exitosamente.",
          registros.map (importStmt db_type tabla columnas),
          registros.map (importStmt db_type tabla columnas)⟩) ∧
    (j < registros.length → (∀ i, i < j → exec i = .ok ()) → exec j = .error e →
      importarTabla db_type tabla columnas registros exec =
        ⟨true, "Error al importar datos: " ++ e,
          (registros.map (importStmt db_type tabla columnas)).take (j + 1),
          (registros.map (importStmt db_type tabla columnas)).take j⟩) ∧
    (registros ≠ [] →
      ((∀ i, i < registros.length → exec i = .ok ()) →
        insertarDatos db_type tabla registros exec =
          ⟨false, "Se insertaron " ++ Nat.repr registros.length
              ++ " registro(s) en la tabla \x27" ++ tabla ++ "\x27 exitosamente.",
            registros.map (fun r => buildInsert db_type tabla (objKeys r) (objValues r)),
            registros.map (fun r => buildInsert db_type tabla (objKeys r) (objValues r))⟩) ∧
      (j < registros.length → (∀ i, i < j → exec i = .ok ()) → exec j = .error e →
        insertarDatos db_type tabla registros exec =
          ⟨true, "Error al insertar datos: " ++ e,
            (registros.map (fun r =>
              buildInsert db_type tabla (objKeys r) (objValues r))).take (j + 1),
            (registros.map (fun r =>
              buildInsert db_type tabla (objKeys r) (objValues r))).take j⟩)) := by
  refine ⟨?_, ?_, fun hne => ⟨?_, ?_⟩⟩
  · intro h
    have hrun := runInserts_ok exec (registros.map (importStmt db_type tabla columnas)) 0
      (fun i hi => by
        have hlen : i < registros.length := by simpa using hi
        simpa using h i hlen)
    simp [importarTabla, hrun]
  · intro hj hok herr
    have hrun := runInserts_fail exec e
      (registros.map (importStmt db_type tabla columnas)) 0 j
      (by simpa using hj)
      (fun i hi => by simpa using hok i hi)
      (by simpa using herr)
    simp [importarTabla, hrun]
  · intro h
    have hbne : (registros.length == 0) = false :=
      beq_eq_false_iff_ne.mpr (by simpa [List.length_eq_zero] using hne)
    have hrun := runInserts_ok exec
      (registros.map (fun r => buildInsert db_type tabla (objKeys r) (objValues r))) 0
      (fun i hi => by
        have hlen : i < registros.length := by simpa using hi
        simpa using h i hlen)
    simp [insertarDatos, hbne, hrun]
  · intro hj hok herr
    have hbne : (registros.length == 0) = false :=
      beq_eq_false_iff_ne.mpr (by simpa [List.length_eq_zero] using hne)
    have hrun := runInserts_fail exec e
      (registros.map (fun r => buildInsert db_type tabla (objKeys r) (objValues r))) 0 j
      (by simpa using hj)
      (fun i hi => by simpa using hok i hi)
      (by simpa using herr)
    simp [insertarDatos, hbne, hrun]

/-- Witness for C10: a two-record batch, once fully succeeding (message
reports 2) and once failing on the second statement (error envelope, first
insert already applied, one statement per record). -/
theorem c10_bulk_insert_sequencing_witness :
    importarTabla "mysql" "t" none [[("a", some "1")], [("a", some "2")]]
      (fun _ => Except.ok ()) =
      ⟨false, "Se importaron 2 registro(s) en la tabla \x27t\x27 exitosamente.",
        [⟨"INSERT INTO \x60t\x60 (\x60a\x60) VALUES (?)", [some "1"]⟩,
         ⟨"INSERT INTO \x60t\x60 (\x60a\x60) VALUES (?)", [some "2"]⟩],
        [⟨"INSERT INTO \x60t\x60 (\x60a\x60) VALUES (?)", [some "1"]⟩,
         ⟨"INSERT INTO \x60t\x60 (\x60a\x60) VALUES (?)", [some "2"]⟩]⟩ ∧
    importarTabla "mysql" "t" none [[("a", some "1")], [("a", some "2")]]
      (fun k => if k == 0 then Except.ok () else Except.error "dup") =
      ⟨true, "Error al importar datos: dup",
        [⟨"INSERT INTO \x60t\x60 (\x60a\x60) VALUES (?)", [some "1"]⟩,
         ⟨"INSERT INTO \x60t\x60 (\x60a\x60) VALUES (?)", [some "2"]⟩],
        [⟨"INSERT INTO \x60t\x60 (\x60a\x60) VALUES (?)", [some "1"]⟩]⟩ ∧
    insertarDatos "mysql" "t" [[("a", some "1")], [("a", some "2")]]
      (fun _ => Except.ok ()) =
      ⟨false, "Se insertaron 2 registro(s) en la tabla \x27t\x27 exitosamente.",
        [⟨"INSERT INTO \x60t\x60 (\x60a\x60) VALUES (?)", [some "1"]⟩,
         ⟨"INSERT INTO \x60t\x60 (\x60a\x60) VALUES (?)", [some "2"]⟩],
        [⟨"INSERT INTO \x60t\x60 (\x60a\x60) VALUES (?)", [some "1"]⟩,
         ⟨"INSERT INTO \x60t\x60 (\x60a\x60) VALUES (?)", [some "2"]⟩]⟩ := by
  refine ⟨?_, ?_, ?_⟩
  · have h := (c10_bulk_insert_sequencing "mysql" "t" none
      [[("a", some "1")], [("a", some "2")]] (fun _ => Except.ok ()) 1 "dup").1
      (fun i _ => rfl)
    rw [h]
    decide
  · have h := (c10_bulk_insert_sequencing "mysql" "t" none
      [[("a", some "1")], [("a", some "2")]]
      (fun k => if k == 0 then Except.ok () else Except.error "dup") 1 "dup").2.1
      (by decide)
      (fun i hi => by
        have hz : i = 0 := by omega
        subst hz
        rfl)
      rfl
    rw [h]
    decide
  · have h := ((c10_bulk_insert_sequencing "mysql" "t" none
      [[("a", some "1")], [("a", some "2")]] (fun _ => Except.ok ()) 1 "dup").2.2
      (by decide)).1 (fun i _ => rfl)
    rw [h]
    decide

end MyPos
